import Mathlib

/-!
Shallow embedding of the modmail bot room-lifecycle and message-routing core
(`src/lib.rs`, with the equivalent data-access code in `src/database/config.rs`
and `src/database/rooms.rs`).

Modelling conventions:
* SQLite tables are lists of rows; the `rooms` primary key is an explicit
  autoincrement counter carried next to the rows.
* Discord identifiers (`UserId`, `ChannelId`, `RoleId`, all `u64` newtypes) are
  `Nat`; they are stored in the database in canonical decimal-string form
  (`to_string` / `parse`), exactly as the source does.
* Fallible external calls (Discord sends, role checks, thread creation, the
  petname sampler) are driven by an oracle `Env` fixing the outcome of each
  call site.
* A function outcome is `ok` / `err BotError` (the `Result` of the source),
  `panic` (a Rust `expect` / `unwrap` / `assert` failure), or `diverge` (the
  unbounded codename-collision loop never exiting).
-/

namespace Modmail

/-- lib.rs `BotError`. `InternalError` carries a wrapped `anyhow::Error` in the
source that only feeds logging; its `Display` form is the fixed message
"There was an error processing your command.", so the model drops the payload. -/
inductive BotError where
  | UserError (msg : String)
  | UnknownCommand (name : String)
  | InternalError
deriving DecidableEq

/-- Terminal behaviour of one handler invocation: the source `Result`, a Rust
panic, or the codename loop spinning forever. -/
inductive Outcome (α : Type) where
  | ok (a : α)
  | err (e : BotError)
  | panic (msg : String)
  | diverge
deriving DecidableEq

/-- One row of the `config` table: `config(key unique, value)`. -/
structure ConfigRow where
  key : String
  value : String
deriving DecidableEq

/-- The `config` table as its list of rows. -/
abbrev ConfigStore := List ConfigRow

/-- Bot::config (lib.rs:56): `SELECT value FROM config WHERE key = ?` with
`fetch_optional`. -/
def config_get (st : ConfigStore) (key : String) : Option String :=
  (st.find? (fun r => r.key == key)).map (fun r => r.value)

/-- Bot::set_config (lib.rs:64): `INSERT INTO config (key, value) VALUES (?, ?)
ON CONFLICT (key) DO UPDATE SET value = excluded.value` — an upsert that
replaces the row in place when the key exists and appends it otherwise (the
schema keeps `key` unique, so at most one row can match). The
`assert_eq!(rows_affected, 1)` always passes: an upsert touches exactly one
row. -/
def config_set (st : ConfigStore) (key value : String) : ConfigStore :=
  match st with
  | [] => [⟨key, value⟩]
  | r :: rest =>
    if r.key == key then ⟨key, value⟩ :: rest else r :: config_set rest key value

/-- Bot::unset_config (lib.rs:79): `DELETE FROM config WHERE key = ?`; deleting
an absent key deletes zero rows and is not an error. -/
def config_unset (st : ConfigStore) (key : String) : ConfigStore :=
  st.filter (fun r => r.key != key)

/-- Bot::unset_config returns `Result<()>`; the model exposes the updated store.
The query itself cannot violate a constraint, so the call always succeeds. -/
def unset_config (st : ConfigStore) (key : String) : Outcome ConfigStore :=
  .ok (config_unset st key)

/-- Digit-list accumulator for `parseU64?`. -/
def parseDigits : List Char → Nat → Option Nat
  | [], acc => some acc
  | c :: cs, acc =>
    if c.isDigit then parseDigits cs (acc * 10 + (c.toNat - 48)) else none

/-- Rust `str::parse::<u64>()` on a stored identifier: an optional leading
plus sign, then one or more decimal digits, rejecting values past u64::MAX.
(Implemented structurally over the character list so concrete inputs evaluate
inside the kernel.) -/
def parseU64? (s : String) : Option Nat :=
  let digits : List Char → Option Nat := fun cs =>
    match cs with
    | [] => none
    | cs => parseDigits cs 0
  let raw :=
    match s.data with
    | '+' :: cs => digits cs
    | cs => digits cs
  match raw with
  | some n => if n < 18446744073709551616 then some n else none
  | none => none

/-- One row of the `rooms` table:
`rooms(room_id pk, codename unique, channel_id unique, user_id unique)`;
channel and user identifiers are stored as decimal strings (§6 of the spec). -/
structure RoomRow where
  room_id : Int
  codename : String
  channel_id : String
  user_id : String
deriving DecidableEq

/-- The `rooms` table together with its primary-key autoincrement counter. -/
structure RoomStore where
  rows : List RoomRow
  nextId : Int
deriving DecidableEq

/-- A freshly migrated, empty database. -/
def RoomStore.empty : RoomStore := ⟨[], 1⟩

/-- Modelled from the spec: the migration files defining the `rooms` schema are
not under `src/`; spec §6 gives `rooms(room_id pk, codename unique,
channel_id unique, user_id unique)`. `INSERT INTO rooms (codename, channel_id,
user_id) VALUES (?, ?, ?)` succeeds, assigning a fresh `room_id`, iff no live
row shares the codename, the channel_id or the user_id; otherwise the
uniqueness constraint rejects the insert with a database error (`none`). -/
def rooms_insert (s : RoomStore) (codename channel_id user_id : String) :
    Option RoomStore :=
  if s.rows.any (fun r =>
      r.codename == codename || r.channel_id == channel_id || r.user_id == user_id) then
    none
  else
    some ⟨s.rows ++ [⟨s.nextId, codename, channel_id, user_id⟩], s.nextId + 1⟩

/-- `SELECT * FROM rooms WHERE codename = ?` with `fetch_optional`. -/
def rooms_find_by_codename (s : RoomStore) (codename : String) : Option RoomRow :=
  s.rows.find? (fun r => r.codename == codename)

/-- `SELECT * FROM rooms WHERE channel_id = ?` with `fetch_optional`. -/
def rooms_find_by_channel (s : RoomStore) (channel_id : String) : Option RoomRow :=
  s.rows.find? (fun r => r.channel_id == channel_id)

/-- `SELECT * FROM rooms WHERE user_id = ?` with `fetch_optional`. -/
def rooms_find_by_user (s : RoomStore) (user_id : String) : Option RoomRow :=
  s.rows.find? (fun r => r.user_id == user_id)

/-- Bot::check_codename_exists (lib.rs:172):
`SELECT EXISTS(SELECT 1 FROM rooms WHERE codename = ?)`. -/
def check_codename_exists (s : RoomStore) (codename : String) : Bool :=
  s.rows.any (fun r => r.codename == codename)

/-- `DELETE FROM rooms WHERE room_id = ?`: removes the row if present; removing
an absent id deletes zero rows. -/
def rooms_delete (s : RoomStore) (room_id : Int) : RoomStore :=
  ⟨s.rows.filter (fun r => r.room_id != room_id), s.nextId⟩

/-- Bot::delete_room (lib.rs:147): the DELETE itself cannot violate a
constraint, so the call always returns `Ok(())`; the model exposes the updated
store. -/
def delete_room (s : RoomStore) (room_id : Int) : Outcome RoomStore :=
  .ok (rooms_delete s room_id)

/-- Bot::new_room (lib.rs:155): INSERT with the ids rendered `to_string`; a
database error (here: a uniqueness-constraint rejection) is converted by `?`
through `anyhow::Error::from` into `BotError::InternalError`. The
`assert_eq!(rows_affected, 1)` always passes on a successful single-row
insert. -/
def new_room (s : RoomStore) (codename : String) (channel_id user_id : Nat) :
    Outcome RoomStore :=
  match rooms_insert s codename (toString channel_id) (toString user_id) with
  | some s2 => .ok s2
  | none => .err .InternalError

/-- lib.rs `Room`: a row with the channel and user ids parsed back to numbers
(`TryFrom<RawRoom>`, lib.rs:579). -/
structure Room where
  room_id : Int
  codename : String
  channel_id : Nat
  user_id : Nat
deriving DecidableEq

/-- `Room::try_from(raw)`: fails exactly when a stored id fails to parse. -/
def RoomRow.toRoom? (r : RoomRow) : Option Room := do
  let ch ← parseU64? r.channel_id
  let u ← parseU64? r.user_id
  pure ⟨r.room_id, r.codename, ch, u⟩

/-- Shared shape of Bot::room_from_codename / room_from_channel /
room_from_user (lib.rs:115-145): map the fetched row through `try_from`, where
a parse failure is the `expect("got malformed thread from database")` panic. -/
def fetched_room (row : Option RoomRow) : Outcome (Option Room) :=
  match row with
  | none => .ok none
  | some r =>
    match r.toRoom? with
    | some room => .ok (some room)
    | none => .panic "got malformed thread from database"

/-- Bot::room_from_codename (lib.rs:115). -/
def room_from_codename (s : RoomStore) (codename : String) : Outcome (Option Room) :=
  fetched_room (rooms_find_by_codename s codename)

/-- Bot::room_from_channel (lib.rs:125): the `u64` is rendered `to_string`
before the query. -/
def room_from_channel (s : RoomStore) (channel_id : Nat) : Outcome (Option Room) :=
  fetched_room (rooms_find_by_channel s (toString channel_id))

/-- Bot::room_from_user (lib.rs:136). -/
def room_from_user (s : RoomStore) (user_id : Nat) : Outcome (Option Room) :=
  fetched_room (rooms_find_by_user s (toString user_id))

/-- Bot::get_blockrole (lib.rs:87): read config key "blockrole" and parse it,
where a malformed stored id is the `expect("got malformed ID from database")`
panic. -/
def get_blockrole (cfg : ConfigStore) : Outcome (Option Nat) :=
  match config_get cfg "blockrole" with
  | none => .ok none
  | some s =>
    match parseU64? s with
    | some n => .ok (some n)
    | none => .panic "got malformed ID from database"

/-- Bot::get_inbox (lib.rs:101): same shape for the "inbox" key. -/
def get_inbox (cfg : ConfigStore) : Outcome (Option Nat) :=
  match config_get cfg "inbox" with
  | none => .ok none
  | some s =>
    match parseU64? s with
    | some n => .ok (some n)
    | none => .panic "got malformed ID from database"

/-- serenity `MessageBuilder::new().push_safe(content).build()`: an external
collaborator (outbound rendering is out of scope per spec §1) that escapes the
destination markup without reinterpreting the content; modelled as the
identity on the forwarded content. -/
def push_safe (s : String) : String := s

/-- The unbounded collision-retry loop of handle_message (lib.rs:365): draw
`petname::petname(2, " ")` candidates in oracle order and exit with the first
whose codename is not yet taken. If the oracle stream is exhausted without a
fresh candidate the loop never exits, which the caller surfaces as
`Outcome.diverge`. -/
def pick_codename (s : RoomStore) : List String → Option String
  | [] => none
  | c :: rest => if check_codename_exists s c then pick_codename s rest else some c

/-- One successfully performed outbound side effect on the transport. Calls
that fail perform no effect and are recorded by the error they raise instead. -/
inductive Action where
  | say (channel : Nat) (content : String)
  | createThread (inbox tid : Nat) (name : String)
  | sendToChannel (channel : Nat) (content : String)
  | dmUser (user : Nat) (content : String)
  | grantRole (user role : Nat)
  | archiveThread (channel : Nat)
deriving DecidableEq

/-- Oracle for the external collaborators (the Discord transport and the
petname sampler): each field fixes the outcome of one fallible call site. -/
structure Env where
  /-- `msg.author.has_role(ctx, guild, role)`: `none` is a transport error. -/
  hasRole : Option Bool
  /-- `room.channel_id.send_message` when forwarding to an existing room. -/
  sendOk : Bool
  /-- `inbox.say(ctx, "Got mail from new user.")`. -/
  sayOk : Bool
  /-- `inbox.create_public_thread`: `some id` is the created thread. -/
  threadId : Option Nat
  /-- `thread.send_message` into the freshly created thread. -/
  forwardOk : Bool
  /-- `create_dm_channel` plus `send_message` to the user (both mapped to
  `InternalError` on failure, so one flag covers the pair). -/
  dmOk : Bool
  /-- Successive samples of `petname::petname(2, " ")`. -/
  candidates : List String
  /-- `guild.member(ctx, room.user_id)` in the block command. -/
  memberOk : Bool
  /-- `member.add_role(ctx, role)` in the block command. -/
  addRoleOk : Bool
  /-- `room.channel_id.edit_thread(ctx, archived)` in the close command. -/
  archiveOk : Bool
deriving DecidableEq

/-- The fields of a serenity `Message` that handle_message reads:
`msg.is_private()` holds iff the message arrived outside any guild (a DM). -/
structure Msg where
  author_id : Nat
  channel_id : Nat
  content : String
  is_private : Bool
deriving DecidableEq

/-- Result of one handle_message invocation: the `Result<Option<String>>` of
the source (the optional string is the single reply the outer `message`
handler sends back), the two stores after the call, and the performed outbound
effects. The config store is passed through unchanged in every branch: the
source executes no config write on any message path. -/
structure HMRes where
  out : Outcome (Option String)
  cfg : ConfigStore
  rooms : RoomStore
  actions : List Action
deriving DecidableEq

/-- lib.rs:351-397 — the private-message path after the block check: forward
into an existing room, or open a new one under the configured inbox. -/
def hm_after_block (cfg : ConfigStore) (rooms : RoomStore) (env : Env) (msg : Msg) :
    HMRes :=
  match room_from_user rooms msg.author_id with
  | .panic m => ⟨.panic m, cfg, rooms, []⟩
  | .err e => ⟨.err e, cfg, rooms, []⟩
  | .diverge => ⟨.diverge, cfg, rooms, []⟩
  | .ok (some room) =>
    if env.sendOk then
      ⟨.ok none, cfg, rooms, [.sendToChannel room.channel_id (push_safe msg.content)]⟩
    else
      ⟨.err .InternalError, cfg, rooms, []⟩
  | .ok none =>
    match get_inbox cfg with
    | .panic m => ⟨.panic m, cfg, rooms, []⟩
    | .err e => ⟨.err e, cfg, rooms, []⟩
    | .diverge => ⟨.diverge, cfg, rooms, []⟩
    | .ok none => ⟨.ok none, cfg, rooms, []⟩
    | .ok (some inbox) =>
      match pick_codename rooms env.candidates with
      | none => ⟨.diverge, cfg, rooms, []⟩
      | some codename =>
        if env.sayOk then
          match env.threadId with
          | none =>
            ⟨.err .InternalError, cfg, rooms, [.say inbox "Got mail from new user."]⟩
          | some tid =>
            if env.forwardOk then
              match new_room rooms codename tid msg.author_id with
              | .ok rooms2 =>
                ⟨.ok (some ("You\x27ve been assigned the codename `" ++ codename ++ "`.")),
                 cfg, rooms2,
                 [.say inbox "Got mail from new user.",
                  .createThread inbox tid codename,
                  .sendToChannel tid (push_safe msg.content)]⟩
              | .err e =>
                ⟨.err e, cfg, rooms,
                 [.say inbox "Got mail from new user.",
                  .createThread inbox tid codename,
                  .sendToChannel tid (push_safe msg.content)]⟩
              | .panic m =>
                ⟨.panic m, cfg, rooms,
                 [.say inbox "Got mail from new user.",
                  .createThread inbox tid codename,
                  .sendToChannel tid (push_safe msg.content)]⟩
              | .diverge =>
                ⟨.diverge, cfg, rooms,
                 [.say inbox "Got mail from new user.",
                  .createThread inbox tid codename,
                  .sendToChannel tid (push_safe msg.content)]⟩
            else
              ⟨.err .InternalError, cfg, rooms,
               [.say inbox "Got mail from new user.",
                .createThread inbox tid codename]⟩
        else
          ⟨.err .InternalError, cfg, rooms, []⟩

/-- lib.rs:398-414 — the staff-side path: resolve the room by the origin
channel and relay the content to the user by direct message. -/
def hm_guild (cfg : ConfigStore) (rooms : RoomStore) (env : Env) (msg : Msg) : HMRes :=
  match room_from_channel rooms msg.channel_id with
  | .panic m => ⟨.panic m, cfg, rooms, []⟩
  | .err e => ⟨.err e, cfg, rooms, []⟩
  | .diverge => ⟨.diverge, cfg, rooms, []⟩
  | .ok none => ⟨.ok none, cfg, rooms, []⟩
  | .ok (some room) =>
    if env.dmOk then
      ⟨.ok none, cfg, rooms, [.dmUser room.user_id (push_safe msg.content)]⟩
    else
      ⟨.err .InternalError, cfg, rooms, []⟩

/-- Bot::handle_message (lib.rs:329-415). `current_user` is the bot identity
from `ctx.cache.current_user().id`. -/
def handle_message (current_user : Nat) (cfg : ConfigStore) (rooms : RoomStore)
    (env : Env) (msg : Msg) : HMRes :=
  if msg.author_id == current_user then
    ⟨.ok none, cfg, rooms, []⟩
  else if msg.is_private then
    match get_blockrole cfg with
    | .panic m => ⟨.panic m, cfg, rooms, []⟩
    | .err e => ⟨.err e, cfg, rooms, []⟩
    | .diverge => ⟨.diverge, cfg, rooms, []⟩
    | .ok (some _role) =>
      match env.hasRole with
      | none => ⟨.err .InternalError, cfg, rooms, []⟩
      | some true =>
        ⟨.ok (some "You have been blocked by a server admin."), cfg, rooms, []⟩
      | some false => hm_after_block cfg rooms env msg
    | .ok none => hm_after_block cfg rooms env msg
  else
    hm_guild cfg rooms env msg

/-- EventHandler::thread_delete (lib.rs:546): look the room up by the deleted
channel; delete it when found; on a lookup fault only log. The store is
unchanged in every non-delete branch. -/
def thread_delete (rooms : RoomStore) (channel_id : Nat) : RoomStore :=
  match room_from_channel rooms channel_id with
  | .ok (some room) => rooms_delete rooms room.room_id
  | _ => rooms

/-- The two permission bits execute_command reads from the invoking member. -/
structure Perms where
  manage_roles : Bool
  manage_channels : Bool
deriving DecidableEq

/-- A resolved `ApplicationCommandInteractionDataOptionValue`, restricted to
the variants the dispatcher matches on. The role variant keeps the name the
reply renders; the channel variant keeps the id the reply mentions. -/
inductive OptVal where
  | role (id : Nat) (name : String)
  | channel (id : Nat)
  | str (s : String)
deriving DecidableEq

/-- One top-level interaction option. The source reads only its name, its own
resolved value, and the resolved values of its sub-options, so the model keeps
exactly those; an absent `resolved` is the source of an `unwrap` panic. -/
structure CmdSub where
  name : String
  resolved : Option OptVal
  suboptions : List (Option OptVal)
deriving DecidableEq

/-- An `ApplicationCommandInteraction` as execute_command consumes it.
`perms` collapses `cmd.member.unwrap().permissions.unwrap()`: `none` means one
of the two unwraps panics. -/
structure Cmd where
  name : String
  options : List CmdSub
  perms : Option Perms
deriving DecidableEq

/-- Result of one execute_command invocation: the `Result<String>` of the
source (the string is the dispatcher reply), both stores after the call, and
the performed outbound effects. -/
structure CmdRes where
  out : Outcome String
  cfg : ConfigStore
  rooms : RoomStore
  actions : List Action
deriving DecidableEq

/-- The Rust panic message of `Option::unwrap` on `None`. -/
def unwrapPanic : String := "called Option::unwrap() on a None value"

/-- Bot::execute_command (lib.rs:183-327). -/
def execute_command (cfg : ConfigStore) (rooms : RoomStore) (env : Env)
    (cmd : Cmd) : CmdRes :=
  match cmd.perms with
  | none => ⟨.panic unwrapPanic, cfg, rooms, []⟩
  | some perms =>
    match cmd.name with
    | "blockrole" =>
      if !perms.manage_roles then
        ⟨.err (.UserError "You don\x27t have `Manage Roles` permission."), cfg, rooms, []⟩
      else
        match cmd.options.head? with
        | none => ⟨.panic unwrapPanic, cfg, rooms, []⟩
        | some sub =>
          match sub.name with
          | "set" =>
            match sub.suboptions.head? with
            | none => ⟨.panic unwrapPanic, cfg, rooms, []⟩
            | some none => ⟨.panic unwrapPanic, cfg, rooms, []⟩
            | some (some (.role id name)) =>
              ⟨.ok ("Set block role to `" ++ name ++ "`."),
               config_set cfg "blockrole" (toString id), rooms, []⟩
            | some (some _) => ⟨.panic "got wrong option value", cfg, rooms, []⟩
          | "unset" =>
            ⟨.ok "Unset block role.", config_unset cfg "blockrole", rooms, []⟩
          | _ =>
            ⟨.err (.UnknownCommand (cmd.name ++ " " ++ sub.name)), cfg, rooms, []⟩
    | "inbox" =>
      if !perms.manage_channels then
        ⟨.err (.UserError "You don\x27t have `Manage Channels` permission."), cfg, rooms, []⟩
      else
        match cmd.options.head? with
        | none => ⟨.panic unwrapPanic, cfg, rooms, []⟩
        | some sub =>
          match sub.name with
          | "set" =>
            match sub.suboptions.head? with
            | none => ⟨.panic unwrapPanic, cfg, rooms, []⟩
            | some none => ⟨.panic unwrapPanic, cfg, rooms, []⟩
            | some (some (.channel id)) =>
              ⟨.ok ("Set inbox to <#" ++ toString id ++ ">."),
               config_set cfg "inbox" (toString id), rooms, []⟩
            | some (some _) => ⟨.panic "got wrong option value", cfg, rooms, []⟩
          | "unset" =>
            ⟨.ok "Unset inbox.", config_unset cfg "inbox", rooms, []⟩
          | _ =>
            ⟨.err (.UnknownCommand (cmd.name ++ " " ++ sub.name)), cfg, rooms, []⟩
    | "block" =>
      if !perms.manage_roles then
        ⟨.err (.UserError "You don\x27t have `Manage Roles` permission."), cfg, rooms, []⟩
      else
        -- lib.rs:259: the configured block role is resolved FIRST, before the
        -- codename option is even read.
        match get_blockrole cfg with
        | .panic m => ⟨.panic m, cfg, rooms, []⟩
        | .err e => ⟨.err e, cfg, rooms, []⟩
        | .diverge => ⟨.diverge, cfg, rooms, []⟩
        | .ok none =>
          ⟨.err (.UserError "There\x27s no block role defined."), cfg, rooms, []⟩
        | .ok (some role) =>
          match cmd.options.head? with
          | none => ⟨.panic unwrapPanic, cfg, rooms, []⟩
          | some opt0 =>
            match opt0.resolved with
            | none => ⟨.panic unwrapPanic, cfg, rooms, []⟩
            | some (.str codename) =>
              match room_from_codename rooms codename with
              | .panic m => ⟨.panic m, cfg, rooms, []⟩
              | .err e => ⟨.err e, cfg, rooms, []⟩
              | .diverge => ⟨.diverge, cfg, rooms, []⟩
              | .ok none =>
                ⟨.err (.UserError ("No thread with codename `" ++ codename ++ "` found.")),
                 cfg, rooms, []⟩
              | .ok (some room) =>
                if !env.memberOk then
                  ⟨.err (.UserError "User is not a member or the server is unavailable."),
                   cfg, rooms, []⟩
                else if !env.addRoleOk then
                  ⟨.err (.UserError "Missing permissions or configured block role is invalid."),
                   cfg, rooms, []⟩
                else
                  ⟨.ok ("Blocked `" ++ codename ++ "`."), cfg, rooms,
                   [.grantRole room.user_id role]⟩
            | some _ => ⟨.panic "got wrong option value", cfg, rooms, []⟩
    | "close" =>
      if !perms.manage_channels then
        ⟨.err (.UserError "You don\x27t have `Manage Channels` permission."), cfg, rooms, []⟩
      else
        match cmd.options.head? with
        | none => ⟨.panic unwrapPanic, cfg, rooms, []⟩
        | some opt0 =>
          match opt0.resolved with
          | none => ⟨.panic unwrapPanic, cfg, rooms, []⟩
          | some (.str codename) =>
            match room_from_codename rooms codename with
            | .panic m => ⟨.panic m, cfg, rooms, []⟩
            | .err e => ⟨.err e, cfg, rooms, []⟩
            | .diverge => ⟨.diverge, cfg, rooms, []⟩
            | .ok none =>
              ⟨.err (.UserError ("No thread with codename `" ++ codename ++ "` found.")),
               cfg, rooms, []⟩
            | .ok (some room) =>
              -- lib.rs:310: `let _ =` swallows the archive failure; the delete
              -- below runs regardless of env.archiveOk.
              match delete_room rooms room.room_id with
              | .ok rooms2 =>
                ⟨.ok ("Archived `" ++ codename ++ "` and removed attached user."),
                 cfg, rooms2,
                 if env.archiveOk then [.archiveThread room.channel_id] else []⟩
              | .err e =>
                ⟨.err e, cfg, rooms,
                 if env.archiveOk then [.archiveThread room.channel_id] else []⟩
              | .panic m =>
                ⟨.panic m, cfg, rooms,
                 if env.archiveOk then [.archiveThread room.channel_id] else []⟩
              | .diverge =>
                ⟨.diverge, cfg, rooms,
                 if env.archiveOk then [.archiveThread room.channel_id] else []⟩
          | some _ => ⟨.panic "got wrong option value", cfg, rooms, []⟩
    | _ => ⟨.err (.UnknownCommand cmd.name), cfg, rooms, []⟩

/-- Two room rows collide on none of the three unique keys. -/
def RoomRow.DistinctKeys (a b : RoomRow) : Prop :=
  a.codename ≠ b.codename ∧ a.channel_id ≠ b.channel_id ∧ a.user_id ≠ b.user_id

instance : DecidableRel RoomRow.DistinctKeys := fun a b => by
  unfold RoomRow.DistinctKeys; infer_instance

/-- The uniqueness invariant of spec §3: codename, channel_id and user_id are
each unique across all live rooms. -/
def RoomStore.Uniq (s : RoomStore) : Prop :=
  s.rows.Pairwise RoomRow.DistinctKeys

instance (s : RoomStore) : Decidable s.Uniq := by
  unfold RoomStore.Uniq; infer_instance

/-- One inbound gateway event, the only entry points that touch the stores:
a plain message, a command interaction, or a thread-deletion notice. -/
inductive Event where
  | message (current_user : Nat) (env : Env) (m : Msg)
  | command (env : Env) (c : Cmd)
  | threadDelete (channel_id : Nat)

/-- The state transition one gateway event induces on the two stores. -/
def step (st : ConfigStore × RoomStore) : Event → ConfigStore × RoomStore
  | .message cu env m =>
    let r := handle_message cu st.1 st.2 env m
    (r.cfg, r.rooms)
  | .command env c =>
    let r := execute_command st.1 st.2 env c
    (r.cfg, r.rooms)
  | .threadDelete ch => (st.1, thread_delete st.2 ch)

/-- A freshly migrated database: both tables empty. -/
def initState : ConfigStore × RoomStore := ([], RoomStore.empty)

/-! ## Store-level lemmas -/

theorem config_get_set_self (st : ConfigStore) (k v : String) :
    config_get (config_set st k v) k = some v := by
  induction st with
  | nil => simp [config_set, config_get]
  | cons r rest ih =>
    by_cases hk : (r.key == k) = true
    · simp [config_set, config_get, hk]
    · simp only [config_set, hk, Bool.false_eq_true, if_false]
      simpa [config_get, hk] using ih

theorem config_get_unset_self (st : ConfigStore) (k : String) :
    config_get (config_unset st k) k = none := by
  unfold config_get config_unset
  have h : (st.filter (fun r => r.key != k)).find? (fun r => r.key == k) = none := by
    rw [List.find?_eq_none]
    intro x hx
    simp only [List.mem_filter, bne_iff_ne, ne_eq] at hx
    simp [hx.2]
  rw [h]; rfl

theorem config_unset_idem (st : ConfigStore) (k : String) :
    config_unset (config_unset st k) k = config_unset st k := by
  unfold config_unset
  simp [List.filter_filter]

theorem rooms_insert_uniq {s s2 : RoomStore} {c ch u : String}
    (h : rooms_insert s c ch u = some s2) (hu : s.Uniq) : s2.Uniq := by
  unfold rooms_insert at h
  split at h
  · exact Option.noConfusion h
  · next hany =>
    cases h
    unfold RoomStore.Uniq at hu ⊢
    rw [List.pairwise_append]
    refine ⟨hu, List.pairwise_singleton _ _, ?_⟩
    intro a ha b hb
    simp only [List.mem_singleton] at hb
    subst hb
    simp only [List.any_eq_true, Bool.or_eq_true, beq_iff_eq, not_exists, not_and,
      not_or] at hany
    have h3 := hany a ha
    exact ⟨h3.1.1, h3.1.2, h3.2⟩

theorem rooms_delete_uniq {s : RoomStore} (hu : s.Uniq) (room_id : Int) :
    (rooms_delete s room_id).Uniq :=
  List.Pairwise.sublist (List.filter_sublist _) hu

theorem new_room_uniq {s s2 : RoomStore} {c : String} {ch u : Nat}
    (h : new_room s c ch u = .ok s2) (hu : s.Uniq) : s2.Uniq := by
  unfold new_room at h
  split at h
  · next heq => cases h; exact rooms_insert_uniq heq hu
  · exact Outcome.noConfusion h

/-! ## Invariant preservation through every entry point -/

theorem hm_after_block_uniq (cfg : ConfigStore) (rooms : RoomStore) (env : Env)
    (msg : Msg) (hu : rooms.Uniq) : (hm_after_block cfg rooms env msg).rooms.Uniq := by
  unfold hm_after_block
  repeat' split
  all_goals first
    | exact hu
    | (rename_i heq; exact new_room_uniq heq hu)

theorem hm_guild_rooms_eq (cfg : ConfigStore) (rooms : RoomStore) (env : Env)
    (msg : Msg) : (hm_guild cfg rooms env msg).rooms = rooms := by
  unfold hm_guild
  repeat' split
  all_goals rfl

theorem handle_message_uniq (cu : Nat) (cfg : ConfigStore) (rooms : RoomStore)
    (env : Env) (msg : Msg) (hu : rooms.Uniq) :
    (handle_message cu cfg rooms env msg).rooms.Uniq := by
  unfold handle_message
  repeat' split
  all_goals first
    | exact hu
    | exact hm_after_block_uniq cfg rooms env msg hu
    | (rw [hm_guild_rooms_eq]; exact hu)

theorem execute_command_uniq (cfg : ConfigStore) (rooms : RoomStore) (env : Env)
    (cmd : Cmd) (hu : rooms.Uniq) : (execute_command cfg rooms env cmd).rooms.Uniq := by
  unfold execute_command delete_room
  repeat' split
  all_goals first
    | exact hu
    | (rename_i heq h
       cases heq
       exact rooms_delete_uniq hu _)

theorem thread_delete_uniq (rooms : RoomStore) (ch : Nat) (hu : rooms.Uniq) :
    (thread_delete rooms ch).Uniq := by
  unfold thread_delete
  repeat' split
  all_goals first | exact hu | exact rooms_delete_uniq hu _

theorem step_uniq (st : ConfigStore × RoomStore) (e : Event) (hu : st.2.Uniq) :
    (step st e).2.Uniq := by
  cases e with
  | message cu env m => exact handle_message_uniq cu st.1 st.2 env m hu
  | command env c => exact execute_command_uniq st.1 st.2 env c hu
  | threadDelete ch => exact thread_delete_uniq st.2 ch hu

theorem foldl_step_uniq (events : List Event) (st : ConfigStore × RoomStore)
    (hu : st.2.Uniq) : ((List.foldl step st events).2).Uniq := by
  induction events generalizing st with
  | nil => exact hu
  | cons e rest ih => exact ih _ (step_uniq st e hu)

/-! ## Claims -/

/-- C1: over every sequence of gateway events starting from the fresh database,
no two live rooms share a codename, a channel_id or a user_id; and inserting a
room for a user_id that already has a live room is rejected by the store
(the INSERT violates the user_id uniqueness constraint, so no second room ever
appears) and is surfaced by Bot::new_room as an internal error. -/
theorem rooms_uniqueness_invariant :
    (∀ events : List Event, ((List.foldl step initState events).2).Uniq) ∧
    (∀ (s : RoomStore) (c : String) (ch u : Nat),
      rooms_find_by_user s (toString u) ≠ none →
      rooms_insert s c (toString ch) (toString u) = none ∧
      new_room s c ch u = .err .InternalError) := by
  constructor
  · intro events
    refine foldl_step_uniq events initState ?_
    simp [initState, RoomStore.empty, RoomStore.Uniq]
  · intro s c ch u hfind
    obtain ⟨r, hr⟩ := Option.ne_none_iff_exists'.mp hfind
    unfold rooms_find_by_user at hr
    have hmem := List.mem_of_find?_eq_some hr
    have hbeq := List.find?_some hr
    have hany : s.rows.any (fun row =>
        row.codename == c || row.channel_id == toString ch
          || row.user_id == toString u) = true := by
      refine List.any_eq_true.mpr ⟨r, hmem, ?_⟩
      simp only at hbeq
      simp [hbeq]
    refine ⟨?_, ?_⟩
    · unfold rooms_insert; simp [hany]
    · unfold new_room rooms_insert; simp [hany]

/-- Witness for C1 at concrete inputs: the invariant after a concrete event
sequence, and the rejection of a duplicate user_id on a concrete store that
already maps user 7. -/
theorem rooms_uniqueness_invariant_witness :
    ((List.foldl step initState []).2).Uniq ∧
    (rooms_insert ⟨[⟨1, "alpha", "3", "7"⟩], 2⟩ "beta" (toString 9) (toString 7) = none ∧
     new_room ⟨[⟨1, "alpha", "3", "7"⟩], 2⟩ "beta" 9 7 = .err .InternalError) :=
  ⟨rooms_uniqueness_invariant.1 [],
   rooms_uniqueness_invariant.2 ⟨[⟨1, "alpha", "3", "7"⟩], 2⟩ "beta" 9 7 (by decide)⟩

/-- C6: on the Config Store, set followed by get returns the just-set value
(also when the key was already set: insert-or-replace), unset followed by get
returns absent, and unset on an absent key (here: a key just unset) succeeds
without error and leaves the table unchanged. -/
theorem config_set_get_unset_laws (st : ConfigStore) (k v w : String) :
    config_get (config_set st k v) k = some v ∧
    config_get (config_set (config_set st k w) k v) k = some v ∧
    config_get (config_unset st k) k = none ∧
    unset_config (config_unset st k) k = .ok (config_unset st k) := by
  refine ⟨config_get_set_self st k v, config_get_set_self _ k v,
    config_get_unset_self st k, ?_⟩
  unfold unset_config
  rw [config_unset_idem]

/-- C9: deleting the same room twice never raises: Bot::delete_room returns Ok
on both calls, and the second call leaves the store exactly as the first left
it (the row is already gone), for every store and room_id. -/
theorem double_delete_room_noop (s : RoomStore) (room_id : Int) :
    delete_room s room_id = .ok (rooms_delete s room_id) ∧
    delete_room (rooms_delete s room_id) room_id = .ok (rooms_delete s room_id) := by
  refine ⟨rfl, ?_⟩
  unfold delete_room rooms_delete
  simp [List.filter_filter]

/-- The codename loop only exits with a candidate whose codename is not yet in
the store. -/
theorem pick_codename_fresh {s : RoomStore} {cs : List String} {c : String}
    (h : pick_codename s cs = some c) : check_codename_exists s c = false := by
  induction cs with
  | nil => exact Option.noConfusion h
  | cons x rest ih =>
    unfold pick_codename at h
    split at h
    · exact ih h
    · next hx => cases h; simpa using hx

/-- C2: a private message from a non-blocked sender with no existing room,
with an inbox configured, codename generation succeeding and the outbound
sends delivered (the fresh thread id not colliding with a stored channel),
creates exactly one new room (the appended row), sends exactly one reply to
the user, that reply carries the generated codename, and the generated
codename is not the codename of any room already in the store. -/
theorem new_room_path_success (cu : Nat) (cfg : ConfigStore) (rooms : RoomStore)
    (env : Env) (msg : Msg) (inbox tid : Nat) (codename : String)
    (hpriv : msg.is_private = true) (hauthor : msg.author_id ≠ cu)
    (hnb : get_blockrole cfg = .ok none ∨
      (env.hasRole = some false ∧ ∃ r, get_blockrole cfg = .ok (some r)))
    (hnoroom : rooms_find_by_user rooms (toString msg.author_id) = none)
    (hinbox : get_inbox cfg = .ok (some inbox))
    (hpick : pick_codename rooms env.candidates = some codename)
    (hsay : env.sayOk = true) (hthread : env.threadId = some tid)
    (hforward : env.forwardOk = true)
    (hchfresh : ∀ r ∈ rooms.rows, r.channel_id ≠ toString tid) :
    check_codename_exists rooms codename = false ∧
    handle_message cu cfg rooms env msg =
      ⟨.ok (some ("You\x27ve been assigned the codename `" ++ codename ++ "`.")),
       cfg,
       ⟨rooms.rows ++ [⟨rooms.nextId, codename, toString tid, toString msg.author_id⟩],
        rooms.nextId + 1⟩,
       [.say inbox "Got mail from new user.",
        .createThread inbox tid codename,
        .sendToChannel tid (push_safe msg.content)]⟩ := by
  have hfresh := pick_codename_fresh hpick
  refine ⟨hfresh, ?_⟩
  have husers : ∀ r ∈ rooms.rows, (r.user_id == toString msg.author_id) = false := by
    intro r hrr
    have h2 := List.find?_eq_none.mp hnoroom r hrr
    simpa using h2
  have hcodes : ∀ r ∈ rooms.rows, (r.codename == codename) = false := by
    have h2 : check_codename_exists rooms codename = false := hfresh
    unfold check_codename_exists at h2
    rw [List.any_eq_false] at h2
    intro r hrr
    simpa using h2 r hrr
  have hins : rooms_insert rooms codename (toString tid) (toString msg.author_id) =
      some ⟨rooms.rows ++ [⟨rooms.nextId, codename, toString tid, toString msg.author_id⟩],
            rooms.nextId + 1⟩ := by
    unfold rooms_insert
    have hany : rooms.rows.any (fun r =>
        r.codename == codename || r.channel_id == toString tid
          || r.user_id == toString msg.author_id) = false := by
      rw [List.any_eq_false]
      intro r hrr
      simp [hcodes r hrr, husers r hrr, hchfresh r hrr]
    simp [hany]
  have hroomuser : room_from_user rooms msg.author_id = .ok none := by
    unfold room_from_user fetched_room
    rw [hnoroom]
  have hnr : new_room rooms codename tid msg.author_id = .ok
      ⟨rooms.rows ++ [⟨rooms.nextId, codename, toString tid, toString msg.author_id⟩],
       rooms.nextId + 1⟩ := by
    unfold new_room
    rw [hins]
  rcases hnb with hnb | ⟨hhr, r0, hnb⟩
  · unfold handle_message hm_after_block
    simp [hpriv, hauthor, hnb, hroomuser, hinbox, hpick, hsay, hthread, hforward, hnr]
  · unfold handle_message hm_after_block
    simp [hpriv, hauthor, hnb, hhr, hroomuser, hinbox, hpick, hsay, hthread, hforward, hnr]

/-- Witness for C2: user 7 messages for the first time; the store already maps
user 8 under codename "alpha"; the sampler proposes "misty brook", thread 9 is
created under inbox 20, and exactly one room and one codename reply result. -/
theorem new_room_path_success_witness :
    check_codename_exists ⟨[⟨1, "alpha", "3", "8"⟩], 2⟩ "misty brook" = false ∧
    handle_message 1 [⟨"inbox", "20"⟩] ⟨[⟨1, "alpha", "3", "8"⟩], 2⟩
        ⟨none, true, true, some 9, true, true, ["misty brook"], true, true, true⟩
        ⟨7, 99, "hello", true⟩ =
      ⟨.ok (some ("You\x27ve been assigned the codename `" ++ "misty brook" ++ "`.")),
       [⟨"inbox", "20"⟩],
       ⟨[⟨1, "alpha", "3", "8"⟩] ++ [⟨2, "misty brook", toString 9, toString 7⟩], 3⟩,
       [.say 20 "Got mail from new user.",
        .createThread 20 9 "misty brook",
        .sendToChannel 9 (push_safe "hello")]⟩ :=
  new_room_path_success 1 [⟨"inbox", "20"⟩] ⟨[⟨1, "alpha", "3", "8"⟩], 2⟩
    ⟨none, true, true, some 9, true, true, ["misty brook"], true, true, true⟩
    ⟨7, 99, "hello", true⟩ 20 9 "misty brook" rfl (by decide)
    (Or.inl (by decide)) (by decide) (by decide) (by decide) rfl rfl rfl (by decide)

/-- C7: a private message from a sender who holds the configured block role is
answered with exactly the fixed blocked notice and nothing else happens: no
action is performed (no lookup result is acted on, nothing forwarded, nothing
created) and both stores are untouched — whatever rooms exist. -/
theorem blocked_sender_fixed_notice (cu : Nat) (cfg : ConfigStore)
    (rooms : RoomStore) (env : Env) (msg : Msg) (role : Nat)
    (hpriv : msg.is_private = true) (hauthor : msg.author_id ≠ cu)
    (hrole : get_blockrole cfg = .ok (some role))
    (hblocked : env.hasRole = some true) :
    handle_message cu cfg rooms env msg =
      ⟨.ok (some "You have been blocked by a server admin."), cfg, rooms, []⟩ := by
  unfold handle_message
  simp [hpriv, hauthor, hrole, hblocked]

/-- Witness for C7 at a state where the blocked sender even has a live room:
the room is not forwarded to, the only output is the fixed notice. -/
theorem blocked_sender_fixed_notice_witness :
    handle_message 1 [⟨"blockrole", "5"⟩] ⟨[⟨1, "alpha", "3", "7"⟩], 2⟩
        ⟨some true, true, true, none, true, true, [], true, true, true⟩
        ⟨7, 99, "hi", true⟩ =
      ⟨.ok (some "You have been blocked by a server admin."), [⟨"blockrole", "5"⟩],
       ⟨[⟨1, "alpha", "3", "7"⟩], 2⟩, []⟩ :=
  blocked_sender_fixed_notice 1 _ _ _ _ 5 rfl (by decide) (by decide) rfl

/-- Counterexample to C5 as stated: a private message from a user with no
existing room and no configured inbox is NOT always answered with no reply —
if a block role is configured and the sender holds it, the handler replies
with the blocked notice before ever consulting rooms or inbox. -/
theorem no_inbox_drop_cex :
    (Msg.mk 7 99 "hi" true).is_private = true ∧
    rooms_find_by_user RoomStore.empty (toString (Msg.mk 7 99 "hi" true).author_id) = none ∧
    config_get [⟨"blockrole", "5"⟩] "inbox" = none ∧
    (handle_message 1 [⟨"blockrole", "5"⟩] RoomStore.empty
        ⟨some true, true, true, none, true, true, [], true, true, true⟩
        (Msg.mk 7 99 "hi" true)).out =
      .ok (some "You have been blocked by a server admin.") := by
  refine ⟨rfl, by decide, by decide, by decide⟩

/-- C5 amended: a private message from a NON-BLOCKED sender with no existing
room and no configured inbox is dropped: no reply, no action, and both stores
unchanged. -/
theorem no_inbox_silent_drop (cu : Nat) (cfg : ConfigStore) (rooms : RoomStore)
    (env : Env) (msg : Msg)
    (hpriv : msg.is_private = true)
    (hnb : get_blockrole cfg = .ok none ∨
      (env.hasRole = some false ∧ ∃ r, get_blockrole cfg = .ok (some r)))
    (hnoroom : rooms_find_by_user rooms (toString msg.author_id) = none)
    (hnoinbox : config_get cfg "inbox" = none) :
    handle_message cu cfg rooms env msg = ⟨.ok none, cfg, rooms, []⟩ := by
  have hroomuser : room_from_user rooms msg.author_id = .ok none := by
    unfold room_from_user fetched_room
    rw [hnoroom]
  have hinbox : get_inbox cfg = .ok none := by
    unfold get_inbox
    rw [hnoinbox]
  by_cases hcu : msg.author_id = cu
  · unfold handle_message
    simp [hcu]
  · rcases hnb with hnb | ⟨hhr, r0, hnb⟩
    · unfold handle_message hm_after_block
      simp [hpriv, hcu, hnb, hroomuser, hinbox]
    · unfold handle_message hm_after_block
      simp [hpriv, hcu, hnb, hhr, hroomuser, hinbox]

/-- Witness for the amended C5 at a concrete unconfigured state. -/
theorem no_inbox_silent_drop_witness :
    handle_message 1 [] RoomStore.empty
        ⟨none, true, true, none, true, true, [], true, true, true⟩
        ⟨7, 99, "hi", true⟩ =
      ⟨.ok none, [], RoomStore.empty, []⟩ :=
  no_inbox_silent_drop 1 [] RoomStore.empty
    ⟨none, true, true, none, true, true, [], true, true, true⟩
    ⟨7, 99, "hi", true⟩ rfl (Or.inl (by decide)) (by decide) (by decide)

/-- C10: in the new-room path the Room row is persisted only after the inbox
announcement, the thread creation and the forwarding have all succeeded: if
the announcement fails, or thread creation fails, or forwarding fails, the
handler returns an internal error, the room store is unchanged (no row
persisted) and no codename reply is produced. -/
theorem room_persisted_only_after_sends (cu : Nat) (cfg : ConfigStore)
    (rooms : RoomStore) (env : Env) (msg : Msg) (inbox : Nat) (codename : String)
    (hpriv : msg.is_private = true) (hauthor : msg.author_id ≠ cu)
    (hnb : get_blockrole cfg = .ok none ∨
      (env.hasRole = some false ∧ ∃ r, get_blockrole cfg = .ok (some r)))
    (hnoroom : rooms_find_by_user rooms (toString msg.author_id) = none)
    (hinbox : get_inbox cfg = .ok (some inbox))
    (hpick : pick_codename rooms env.candidates = some codename) :
    (env.sayOk = false →
      handle_message cu cfg rooms env msg = ⟨.err .InternalError, cfg, rooms, []⟩) ∧
    (env.sayOk = true → env.threadId = none →
      handle_message cu cfg rooms env msg =
        ⟨.err .InternalError, cfg, rooms, [.say inbox "Got mail from new user."]⟩) ∧
    (∀ tid, env.sayOk = true → env.threadId = some tid → env.forwardOk = false →
      handle_message cu cfg rooms env msg =
        ⟨.err .InternalError, cfg, rooms,
         [.say inbox "Got mail from new user.", .createThread inbox tid codename]⟩) := by
  have hroomuser : room_from_user rooms msg.author_id = .ok none := by
    unfold room_from_user fetched_room
    rw [hnoroom]
  rcases hnb with hnb | ⟨hhr, r0, hnb⟩
  · refine ⟨fun hsay => ?_, fun hsay hth => ?_, fun tid hsay hth hfw => ?_⟩
    · unfold handle_message hm_after_block
      simp [hpriv, hauthor, hnb, hroomuser, hinbox, hpick, hsay]
    · unfold handle_message hm_after_block
      simp [hpriv, hauthor, hnb, hroomuser, hinbox, hpick, hsay, hth]
    · unfold handle_message hm_after_block
      simp [hpriv, hauthor, hnb, hroomuser, hinbox, hpick, hsay, hth, hfw]
  · refine ⟨fun hsay => ?_, fun hsay hth => ?_, fun tid hsay hth hfw => ?_⟩
    · unfold handle_message hm_after_block
      simp [hpriv, hauthor, hnb, hhr, hroomuser, hinbox, hpick, hsay]
    · unfold handle_message hm_after_block
      simp [hpriv, hauthor, hnb, hhr, hroomuser, hinbox, hpick, hsay, hth]
    · unfold handle_message hm_after_block
      simp [hpriv, hauthor, hnb, hhr, hroomuser, hinbox, hpick, hsay, hth, hfw]

/-- Witness for C10: the inbox announcement fails, so no room row appears and
the handler returns the internal error with no reply. -/
theorem room_persisted_only_after_sends_witness :
    handle_message 1 [⟨"inbox", "20"⟩] RoomStore.empty
        ⟨none, true, false, some 9, true, true, ["misty brook"], true, true, true⟩
        ⟨7, 99, "hello", true⟩ =
      ⟨.err .InternalError, [⟨"inbox", "20"⟩], RoomStore.empty, []⟩ :=
  (room_persisted_only_after_sends 1 [⟨"inbox", "20"⟩] RoomStore.empty
    ⟨none, true, false, some 9, true, true, ["misty brook"], true, true, true⟩
    ⟨7, 99, "hello", true⟩ 20 "misty brook" rfl (by decide)
    (Or.inl (by decide)) (by decide) (by decide) rfl).1 rfl

/-- C8: a command invocation lacking the required capability — Manage Roles
for blockrole / block, Manage Channels for inbox / close — is rejected with
the corresponding user-facing permission error, with no action performed and
both stores unchanged. -/
theorem missing_capability_rejected (cfg : ConfigStore) (rooms : RoomStore)
    (env : Env) (cmd : Cmd) (p : Perms) (hp : cmd.perms = some p) :
    ((cmd.name = "blockrole" ∨ cmd.name = "block") → p.manage_roles = false →
      execute_command cfg rooms env cmd =
        ⟨.err (.UserError "You don\x27t have `Manage Roles` permission."),
         cfg, rooms, []⟩) ∧
    ((cmd.name = "inbox" ∨ cmd.name = "close") → p.manage_channels = false →
      execute_command cfg rooms env cmd =
        ⟨.err (.UserError "You don\x27t have `Manage Channels` permission."),
         cfg, rooms, []⟩) := by
  constructor
  · rintro (hname | hname) hperm <;>
      (unfold execute_command
       simp [hp, hname, hperm])
  · rintro (hname | hname) hperm <;>
      (unfold execute_command
       simp [hp, hname, hperm])

/-- Witness for C8: close invoked without Manage Channels is refused with no
mutation. -/
theorem missing_capability_rejected_witness :
    execute_command [] RoomStore.empty
        ⟨none, true, true, none, true, true, [], true, true, true⟩
        ⟨"close", [⟨"codename", some (.str "alpha"), []⟩], some ⟨true, false⟩⟩ =
      ⟨.err (.UserError "You don\x27t have `Manage Channels` permission."),
       [], RoomStore.empty, []⟩ :=
  (missing_capability_rejected [] RoomStore.empty
    ⟨none, true, true, none, true, true, [], true, true, true⟩
    ⟨"close", [⟨"codename", some (.str "alpha"), []⟩], some ⟨true, false⟩⟩
    ⟨true, false⟩ rfl).2 (Or.inr rfl) rfl

/-- Counterexample to C3 as stated: block does NOT resolve the room by
codename first. With no block role configured and no room named "ghost", the
command fails with the block-role error, not the no-such-codename error the
claimed order would produce. -/
theorem block_blockrole_checked_first_cex :
    rooms_find_by_codename RoomStore.empty "ghost" = none ∧
    (execute_command [] RoomStore.empty
        ⟨some false, true, true, none, true, true, [], true, true, true⟩
        ⟨"block", [⟨"codename", some (.str "ghost"), []⟩], some ⟨true, true⟩⟩).out =
      .err (.UserError "There\x27s no block role defined.") ∧
    (execute_command [] RoomStore.empty
        ⟨some false, true, true, none, true, true, [], true, true, true⟩
        ⟨"block", [⟨"codename", some (.str "ghost"), []⟩], some ⟨true, true⟩⟩).out ≠
      .err (.UserError "No thread with codename `ghost` found.") := by
  refine ⟨rfl, rfl, by decide⟩

/-- C3 amended: the block command first resolves the configured block role,
failing with a user error when none is configured, and only then resolves the
room by its codename argument, failing with a user error when absent; in every
failure case (unconfigured role, unknown codename, member fetch failure, role
grant failure) no role is granted and both stores are unchanged. In
particular, block before any block role is configured returns a user error and
grants no role. -/
theorem block_failure_order (cfg : ConfigStore) (rooms : RoomStore) (env : Env)
    (cmd : Cmd) (p : Perms)
    (hp : cmd.perms = some p) (hname : cmd.name = "block")
    (hmr : p.manage_roles = true) :
    (config_get cfg "blockrole" = none →
      execute_command cfg rooms env cmd =
        ⟨.err (.UserError "There\x27s no block role defined."), cfg, rooms, []⟩) ∧
    (∀ role opt0 codename, get_blockrole cfg = .ok (some role) →
      cmd.options.head? = some opt0 → opt0.resolved = some (.str codename) →
      rooms_find_by_codename rooms codename = none →
      execute_command cfg rooms env cmd =
        ⟨.err (.UserError ("No thread with codename `" ++ codename ++ "` found.")),
         cfg, rooms, []⟩) ∧
    (∀ role opt0 codename room, get_blockrole cfg = .ok (some role) →
      cmd.options.head? = some opt0 → opt0.resolved = some (.str codename) →
      room_from_codename rooms codename = .ok (some room) →
      env.memberOk = false →
      execute_command cfg rooms env cmd =
        ⟨.err (.UserError "User is not a member or the server is unavailable."),
         cfg, rooms, []⟩) ∧
    (∀ role opt0 codename room, get_blockrole cfg = .ok (some role) →
      cmd.options.head? = some opt0 → opt0.resolved = some (.str codename) →
      room_from_codename rooms codename = .ok (some room) →
      env.memberOk = true → env.addRoleOk = false →
      execute_command cfg rooms env cmd =
        ⟨.err (.UserError "Missing permissions or configured block role is invalid."),
         cfg, rooms, []⟩) := by
  refine ⟨?_, ?_, ?_, ?_⟩
  · intro hnorole
    have hbr : get_blockrole cfg = .ok none := by
      unfold get_blockrole
      rw [hnorole]
    unfold execute_command
    simp [hp, hname, hmr, hbr]
  · intro role opt0 codename hbr hopt hres hnoroom
    have hrfc : room_from_codename rooms codename = .ok none := by
      unfold room_from_codename fetched_room
      rw [hnoroom]
    unfold execute_command
    simp [hp, hname, hmr, hbr, hopt, hres, hrfc]
  · intro role opt0 codename room hbr hopt hres hroom hmem
    unfold execute_command
    simp [hp, hname, hmr, hbr, hopt, hres, hroom, hmem]
  · intro role opt0 codename room hbr hopt hres hroom hmem haddr
    unfold execute_command
    simp [hp, hname, hmr, hbr, hopt, hres, hroom, hmem, haddr]

/-- Witness for the amended C3: the role-first failure on an unconfigured
state, and the codename failure once a block role is configured. -/
theorem block_failure_order_witness :
    execute_command [] RoomStore.empty
        ⟨none, true, true, none, true, true, [], true, true, true⟩
        ⟨"block", [⟨"codename", some (.str "ghost"), []⟩], some ⟨true, true⟩⟩ =
      ⟨.err (.UserError "There\x27s no block role defined."), [], RoomStore.empty, []⟩ ∧
    execute_command [⟨"blockrole", "5"⟩] RoomStore.empty
        ⟨none, true, true, none, true, true, [], true, true, true⟩
        ⟨"block", [⟨"codename", some (.str "ghost"), []⟩], some ⟨true, true⟩⟩ =
      ⟨.err (.UserError ("No thread with codename `" ++ "ghost" ++ "` found.")),
       [⟨"blockrole", "5"⟩], RoomStore.empty, []⟩ :=
  ⟨(block_failure_order [] RoomStore.empty
      ⟨none, true, true, none, true, true, [], true, true, true⟩
      ⟨"block", [⟨"codename", some (.str "ghost"), []⟩], some ⟨true, true⟩⟩
      ⟨true, true⟩ rfl rfl rfl).1 rfl,
   (block_failure_order [⟨"blockrole", "5"⟩] RoomStore.empty
      ⟨none, true, true, none, true, true, [], true, true, true⟩
      ⟨"block", [⟨"codename", some (.str "ghost"), []⟩], some ⟨true, true⟩⟩
      ⟨true, true⟩ rfl rfl rfl).2.1 5 ⟨"codename", some (.str "ghost"), []⟩ "ghost"
      (by decide) rfl rfl (by decide)⟩

/-- C4: close with an existing codename deletes the Room record and replies
with the success message for EVERY archive outcome — the environment's
archiveOk flag only decides whether the best-effort archive action happens,
never the deletion or the reply; close with an unknown codename returns a user
error and deletes nothing. -/
theorem close_deletes_despite_archive_failure (cfg : ConfigStore)
    (rooms : RoomStore) (env : Env) (cmd : Cmd) (p : Perms) (opt0 : CmdSub)
    (codename : String)
    (hp : cmd.perms = some p) (hname : cmd.name = "close")
    (hmc : p.manage_channels = true)
    (hopt : cmd.options.head? = some opt0)
    (hres : opt0.resolved = some (.str codename)) :
    (∀ room, room_from_codename rooms codename = .ok (some room) →
      execute_command cfg rooms env cmd =
        ⟨.ok ("Archived `" ++ codename ++ "` and removed attached user."), cfg,
         rooms_delete rooms room.room_id,
         if env.archiveOk then [.archiveThread room.channel_id] else []⟩) ∧
    (rooms_find_by_codename rooms codename = none →
      execute_command cfg rooms env cmd =
        ⟨.err (.UserError ("No thread with codename `" ++ codename ++ "` found.")),
         cfg, rooms, []⟩) := by
  constructor
  · intro room hroom
    unfold execute_command delete_room
    simp [hp, hname, hmc, hopt, hres, hroom]
  · intro hnoroom
    have hrfc : room_from_codename rooms codename = .ok none := by
      unfold room_from_codename fetched_room
      rw [hnoroom]
    unfold execute_command
    simp [hp, hname, hmc, hopt, hres, hrfc]

/-- Witness for C4 with the archive FAILING (archiveOk false): the room row is
deleted and the success reply produced all the same. -/
theorem close_deletes_despite_archive_failure_witness :
    execute_command [] ⟨[⟨1, "alpha", "3", "7"⟩], 2⟩
        ⟨none, true, true, none, true, true, [], true, true, false⟩
        ⟨"close", [⟨"codename", some (.str "alpha"), []⟩], some ⟨true, true⟩⟩ =
      ⟨.ok ("Archived `" ++ "alpha" ++ "` and removed attached user."), [],
       rooms_delete ⟨[⟨1, "alpha", "3", "7"⟩], 2⟩ 1, []⟩ :=
  (close_deletes_despite_archive_failure [] ⟨[⟨1, "alpha", "3", "7"⟩], 2⟩
    ⟨none, true, true, none, true, true, [], true, true, false⟩
    ⟨"close", [⟨"codename", some (.str "alpha"), []⟩], some ⟨true, true⟩⟩
    ⟨true, true⟩ ⟨"codename", some (.str "alpha"), []⟩ "alpha"
    rfl rfl rfl rfl rfl).1 ⟨1, "alpha", 3, 7⟩ (by decide)

end Modmail
